import Mathlib

/-
Verification of the Ring Intercom one-touch unlock server (src/app.py)
against its natural-language specification.

The development is a shallow embedding of the non-template logic of
src/app.py: the token store (get_cached_token / token_updated), the
session acquisition (get_ring_client), the device resolver
(find_intercom), the unlock orchestrator (unlock_door_async) and the
second-factor verification step (setup_verify_2fa).  External effects
(the vendor cloud calls and the file system) are modelled by explicit
outcome fields in an environment record; Python exceptions are modelled
with Except, where Except.error is an exception escaping the modelled
function.  The opaque session token is a provider-defined JSON object;
since the code treats it as an opaque JSON-serialisable blob, its two
serialised forms (base64-of-JSON and JSON file text) are modelled by
constructor-tagged codecs that are injective and fail exactly on
ill-formed blobs, which is the behaviour of the real codec on the
values the code passes through it.
-/

/-- TokenData models the parsed Ring token: an opaque dictionary of
provider fields (the code never looks inside it). -/
structure TokenData where
  payload : List (String × String)
deriving DecidableEq

/-- EncodedToken models the content of the RING_TOKEN environment
variable: a base64 blob that either decodes (base64 then JSON) to a
token, or is garbage that fails decoding. -/
inductive EncodedToken where
  | valid (t : TokenData)
  | garbage
deriving DecidableEq

/-- FileText models the bytes of the durable token file: text that
either parses as the JSON of a token, or fails reading or parsing. -/
inductive FileText where
  | valid (t : TokenData)
  | garbage
deriving DecidableEq

/-- Models base64.b64encode(json.dumps(token).encode()) from src/app.py
line 69: total and injective on tokens. -/
def b64_json_encode (t : TokenData) : EncodedToken :=
  EncodedToken.valid t

/-- Models json.loads(base64.b64decode(blob)) from src/app.py lines
87-88: succeeds exactly on well-formed blobs, returning the encoded
token. -/
def b64_json_decode : EncodedToken → Option TokenData
  | EncodedToken.valid t => some t
  | EncodedToken.garbage => none

/-- Models json.dumps(token) as written to the durable file at
src/app.py line 62. -/
def json_dumps (t : TokenData) : FileText :=
  FileText.valid t

/-- Models json.loads(TOKEN_FILE.read_text()) at src/app.py line 95:
succeeds exactly on well-formed file text. -/
def json_loads : FileText → Option TokenData
  | FileText.valid t => some t
  | FileText.garbage => none

/-- The mutable state the token store reads and writes: the RING_TOKEN
environment variable (none when unset or empty, src/app.py line 28),
the durable token file (none when absent, line 32), and the global
latest-token variable used for display (line 40). -/
structure TokenStoreState where
  ringToken : Option EncodedToken
  tokenFile : Option FileText
  latestTokenB64 : Option EncodedToken
deriving DecidableEq

/-- Models the file branch of get_cached_token, src/app.py lines 93-99:
if TOKEN_FILE.is_file(), parse it, logging and falling to None on any
read or parse error; with no file, None. -/
def read_token_file (s : TokenStoreState) : Option TokenData :=
  match s.tokenFile with
  | some txt => json_loads txt
  | none => none

/-- Models get_cached_token, src/app.py lines 80-99: the RING_TOKEN
environment variable is tried first and its decode result returned on
success; on decode failure (logged) and when the variable is unset, the
durable file is consulted. -/
def get_cached_token (s : TokenStoreState) : Option TokenData :=
  match s.ringToken with
  | some enc =>
    match b64_json_decode enc with
    | some t => some t
    | none => read_token_file s
  | none => read_token_file s

/-- Models token_updated, src/app.py lines 56-77: write the token JSON
to the durable file inside try/except (the writeOk flag is the outcome
of the external file write; on failure the error is logged and
swallowed), then unconditionally store the base64 encoding in the
in-memory global.  The function is total: it never raises.  RING_TOKEN
itself is never reassigned. -/
def token_updated (s : TokenStoreState) (t : TokenData) (writeOk : Bool) :
    TokenStoreState :=
  let s1 := if writeOk then { s with tokenFile := some (json_dumps t) } else s
  { s1 with latestTokenB64 := some (b64_json_encode t) }

/-- Models the ASCII case of Python str.lower on one character (the
string comparisons in find_intercom are over ASCII provider names and
the literal intercom / other). -/
def lowerChar (c : Char) : Char :=
  if 65 ≤ c.toNat ∧ c.toNat ≤ 90 then Char.ofNat (c.toNat + 32) else c

/-- Models Python str.lower over a whole string. -/
def lowerStr (s : String) : String :=
  String.mk (s.data.map lowerChar)

/-- Decides whether sub occurs as a contiguous run inside a character
list: models the Python expression sub in s for strings. -/
def listIsInfix (sub : List Char) : List Char → Bool
  | [] => sub.isEmpty
  | c :: rest => sub.isPrefixOf (c :: rest) || listIsInfix sub rest

/-- Models the Python membership test for the literal intercom inside
s.lower(). -/
def hasIntercom (s : String) : Bool :=
  listIsInfix ("intercom").data (lowerStr s).data

/-- Device models one provider device record as probed by src/app.py:
str(type(device)) (always available), and the optional name and family
attributes (none models a missing attribute, matching the hasattr /
getattr probing at lines 152 and 163-165). -/
structure Device where
  typeStr : String
  family : Option String
  name : Option String
deriving DecidableEq

/-- RingDevices models the RingDevices object returned by
ring.devices(): each grouping attribute is an optional device list
(none models the attribute being absent, matching the hasattr probes at
src/app.py lines 132-147). -/
structure RingDevices where
  other : Option (List Device)
  doorbots : Option (List Device)
  stickup_cams : Option (List Device)
  chimes : Option (List Device)
  video_doorbells : Option (List Device)
  devices_combined : Option (List Device)
deriving DecidableEq

/-- Models the flattening loop of find_intercom, src/app.py lines
129-147: extend with other, doorbots, stickup_cams, chimes and
video_doorbells in that order, then, if the devices_combined attribute
exists, replace the accumulated list with it entirely. -/
def allDevices (d : RingDevices) : List Device :=
  match d.devices_combined with
  | some l => l
  | none =>
    (d.other.getD []) ++ (d.doorbots.getD []) ++ (d.stickup_cams.getD []) ++
      (d.chimes.getD []) ++ (d.video_doorbells.getD [])

/-- Models the explicit-intercom test of src/app.py lines 163-168: the
literal intercom occurs in the lowered str(type(device)), family
attribute (empty when absent) or name attribute (empty when absent). -/
def isExplicitIntercom (dev : Device) : Bool :=
  hasIntercom dev.typeStr || hasIntercom (dev.family.getD ("")) ||
    hasIntercom (dev.name.getD (""))

/-- Models the catch-all test of src/app.py line 171: the lowered
family attribute equals the literal other. -/
def isOtherFamily (dev : Device) : Bool :=
  lowerStr (dev.family.getD ("")) == ("other")

/-- Models the name comparison of src/app.py line 152: the device has a
name attribute and it equals the configured name case-insensitively. -/
def nameMatches (target : String) (dev : Device) : Bool :=
  match dev.name with
  | some n => lowerStr n == lowerStr target
  | none => false

/-- Models the heuristic second half of find_intercom, src/app.py lines
159-180: partition the candidates into explicit intercoms and
remaining family-other devices (the elif at line 171 excludes explicit
matches from the second bucket), then return the first explicit match,
else the first catch-all match, else none. -/
def find_intercom_heuristic (all : List Device) : Option Device :=
  match all.filter isExplicitIntercom with
  | dev :: _ => some dev
  | [] =>
    match all.filter (fun dev => !isExplicitIntercom dev && isOtherFamily dev) with
    | dev :: _ => some dev
    | [] => none

/-- Models find_intercom, src/app.py lines 123-180, with the
INTERCOM_NAME configuration passed explicitly: flatten the groupings;
when a non-empty name is configured return the first case-insensitive
name match if one exists; otherwise (no configured name, or no match)
fall through to the heuristic. -/
def find_intercom (intercomName : String) (d : RingDevices) : Option Device :=
  let all := allDevices d
  match (if intercomName = ("") then none
         else all.find? (nameMatches intercomName)) with
  | some dev => some dev
  | none => find_intercom_heuristic all

/-- SessionOutcome models what the awaited pair async_create_session /
async_update_data does in get_ring_client, src/app.py lines 113-114:
succeed, raise AuthenticationError, or raise any other error with a
message. -/
inductive SessionOutcome where
  | ok
  | authError
  | otherError (msg : String)

/-- RingEnv models one unlock attempt: the token store state read at
the start, the outcome of the session-opening calls, the device
snapshot the session exposes, and the outcome of the actuate call
async_open_door (error carries str(e)). -/
structure RingEnv where
  store : TokenStoreState
  session : SessionOutcome
  devices : RingDevices
  actuate : Except String Unit

/-- Models get_ring_client, src/app.py lines 103-120.  Except.ok true
models returning the (ring, auth) pair; Except.ok false models
returning (None, None), both when no cached token exists and when the
session raises AuthenticationError (logged); Except.error models any
other session exception, which the function does not catch and which
therefore escapes it. -/
def get_ring_client (env : RingEnv) : Except String Bool :=
  match get_cached_token env.store with
  | some _ =>
    match env.session with
    | SessionOutcome.ok => Except.ok true
    | SessionOutcome.authError => Except.ok false
    | SessionOutcome.otherError msg => Except.error msg
  | none => Except.ok false

/-- Models the diagnostic device collection of unlock_door_async,
src/app.py lines 199-201: getattr devices_combined with default [],
and when that list is empty and the other attribute exists, use the
other grouping instead. -/
def diagnosticDevices (d : RingDevices) : List Device :=
  let all := d.devices_combined.getD []
  if all.isEmpty then d.other.getD [] else all

/-- Models one debugging entry, src/app.py lines 204-206: name
(Unknown when absent) followed by the family in parentheses (Unknown
when absent). -/
def deviceEntry (dev : Device) : String :=
  (dev.name.getD ("Unknown")) ++ (" (") ++ (dev.family.getD ("Unknown")) ++ (")")

/-- Models the device_list value interpolated into the no-intercom
message at src/app.py line 208. -/
def device_list (d : RingDevices) : List String :=
  (diagnosticDevices d).map deviceEntry

/-- Models the Python str() rendering of a list of strings, as produced
by the f-string at src/app.py line 208. -/
def pyStrList (l : List String) : String :=
  ("[") ++ String.intercalate (", ") (l.map (fun s => ("\x27") ++ s ++ ("\x27"))) ++ ("]")

/-- Models the text of the AttributeError raised by the f-string at
src/app.py line 212 when the selected device lacks a name attribute
(the exact provider-dependent wording is immaterial to every claim;
only that the path is a caught failure matters). -/
def attrErrorText (dev : Device) : String :=
  ("\x27") ++ dev.typeStr ++ ("\x27 object has no attribute \x27name\x27")

/-- UnlockOutcome pairs the value unlock_door_async produces (Except.ok
for a returned (success, message) pair, Except.error for an exception
escaping the function) with the number of times the finally block
invoked auth.async_close. -/
structure UnlockOutcome where
  result : Except String (Bool × String)
  releases : Nat

/-- Models unlock_door_async, src/app.py lines 183-218, with the
INTERCOM_NAME configuration passed explicitly.  get_ring_client is
called before the try block, so an exception it raises escapes with no
release; a (None, None) return hits the early not-authenticated return,
also before the try block, so no release happens; otherwise the body
runs inside try/except Exception/finally, every exception in it is
converted to a failure result, and the finally closes auth exactly
once. -/
def unlock_door_async (cfg : String) (env : RingEnv) : UnlockOutcome :=
  match get_ring_client env with
  | Except.error msg => ⟨Except.error msg, 0⟩
  | Except.ok false =>
    ⟨Except.ok (false, ("Not authenticated. Please visit /setup to authenticate.")), 0⟩
  | Except.ok true =>
    let body : Bool × String :=
      match find_intercom cfg env.devices with
      | none =>
        (false, ("No intercom found. Available devices: ") ++
          pyStrList (device_list env.devices))
      | some dev =>
        match env.actuate with
        | Except.error e => (false, ("Error unlocking door: ") ++ e)
        | Except.ok _ =>
          match dev.name with
          | some n => (true, ("Door unlocked via ") ++ n ++ ("!"))
          | none => (false, ("Error unlocking door: ") ++ attrErrorText dev)
    ⟨Except.ok body, 1⟩

/-- VerifyEnv models one submission to the second-factor stage: the
outcomes of the four awaited calls of verify_2fa in src/app.py lines
771-782, in program order: async_fetch_token with the code,
async_create_session, async_update_data, async_close.  An error
carries str(e). -/
structure VerifyEnv where
  fetchToken : Except String Unit
  createSession : Except String Unit
  updateData : Except String Unit
  closeAuth : Except String Unit

/-- Models the verify_2fa coroutine of setup_verify_2fa, src/app.py
lines 771-782: run the four calls in order inside try/except; the
first exception yields (False, str(e)) and only full success yields
(True, None).  The route renders the success page exactly when the
first component is true. -/
def setup_verify_2fa (env : VerifyEnv) : Bool × Option String :=
  match env.fetchToken with
  | Except.error e => (false, some e)
  | Except.ok _ =>
    match env.createSession with
    | Except.error e => (false, some e)
    | Except.ok _ =>
      match env.updateData with
      | Except.error e => (false, some e)
      | Except.ok _ =>
        match env.closeAuth with
        | Except.error e => (false, some e)
        | Except.ok _ => (true, none)

/-- Concrete token used by witnesses. -/
def tokenA : TokenData :=
  ⟨[(("access_token"), ("aaa"))]⟩

/-- Second concrete token, different from tokenA. -/
def tokenB : TokenData :=
  ⟨[(("access_token"), ("bbb"))]⟩

/-- Token store state holding a valid explicit token and a differing
valid file token. -/
def storeBoth : TokenStoreState :=
  ⟨some (EncodedToken.valid tokenA), some (FileText.valid tokenB), none⟩

/-- Token store state holding only a valid explicit token. -/
def storeEnvOnly : TokenStoreState :=
  ⟨some (EncodedToken.valid tokenA), none, none⟩

/-- The spec example device Front Door with category other. -/
def frontDoor : Device :=
  { typeStr := "<class \x27ring_doorbell.other.RingOther\x27>"
    family := some ("other")
    name := some ("Front Door") }

/-- The spec example device Chime with category chime. -/
def chimeExample : Device :=
  { typeStr := "<class \x27ring_doorbell.chime.RingChime\x27>"
    family := some ("chime")
    name := some ("Chime") }

/-- The spec example candidate set, exposed through the combined
listing. -/
def exampleDevices : RingDevices :=
  ⟨none, none, none, none, none, some [frontDoor, chimeExample]⟩

/-- A RingDevices object exposing no grouping at all. -/
def noDevices : RingDevices :=
  ⟨none, none, none, none, none, none⟩

/-- A device that lives only in the chimes grouping. -/
def chimeOnlyDev : Device :=
  { typeStr := "<class \x27ring_doorbell.chime.RingChime\x27>"
    family := some ("chimes")
    name := some ("Hall Chime") }

/-- A RingDevices object whose only devices sit in the chimes grouping:
the resolver flattens and considers them, the failure diagnostic does
not. -/
def chimesOnly : RingDevices :=
  ⟨none, none, none, some [chimeOnlyDev], none, none⟩

/-- Unlock environment: valid token, session opens, the spec example
devices, actuate raises boom. -/
def envActuateFails : RingEnv :=
  { store := storeEnvOnly
    session := SessionOutcome.ok
    devices := exampleDevices
    actuate := Except.error ("boom") }

/-- Unlock environment: valid token but a transport error while opening
the session. -/
def envTimeout : RingEnv :=
  { store := storeEnvOnly
    session := SessionOutcome.otherError ("Connection timeout")
    devices := noDevices
    actuate := Except.ok () }

/-- Unlock environment: valid token, session opens, no devices at all. -/
def envNoDevices : RingEnv :=
  { store := storeEnvOnly
    session := SessionOutcome.ok
    devices := noDevices
    actuate := Except.ok () }

/-- Unlock environment: valid token but the session reports an
authentication failure. -/
def envAuthExpired : RingEnv :=
  { store := storeEnvOnly
    session := SessionOutcome.authError
    devices := noDevices
    actuate := Except.ok () }

/-- Second-factor environment in which the code is wrong: the fetch
with code raises. -/
def envBadCode : VerifyEnv :=
  { fetchToken := Except.error ("2fa error: invalid code")
    createSession := Except.ok ()
    updateData := Except.ok ()
    closeAuth := Except.ok () }

/-- Helper: the head of a filtered list is the first element satisfying
the predicate. -/
theorem head_filter_eq_find (p : α → Bool) (l : List α) :
    (l.filter p).head? = l.find? p := by
  induction l with
  | nil => rfl
  | cons x xs ih =>
    cases hx : p x <;> simp [List.filter_cons, List.find?_cons, hx, ih]

/-- Helper: when the first predicate rejects every element, filtering
by its negation conjoined with a second predicate is filtering by the
second predicate alone. -/
theorem filter_andNot_of_all_false (p q : α → Bool) (l : List α)
    (h : ∀ a ∈ l, p a = false) :
    l.filter (fun a => !p a && q a) = l.filter q := by
  induction l with
  | nil => rfl
  | cons x xs ih =>
    have hx : p x = false := h x (List.mem_cons_self x xs)
    have hxs : ∀ a ∈ xs, p a = false := fun a ha => h a (List.mem_cons_of_mem x ha)
    simp [List.filter_cons, hx, ih hxs]

/-- Helper: the heuristic half of find_intercom returns the first
explicit intercom match if one exists, else the first family-other
device, else none. -/
theorem find_intercom_heuristic_eq (all : List Device) :
    find_intercom_heuristic all =
      (match all.find? isExplicitIntercom with
       | some dev => some dev
       | none => all.find? isOtherFamily) := by
  unfold find_intercom_heuristic
  cases hf : all.find? isExplicitIntercom with
  | some dev =>
    have h1 : (all.filter isExplicitIntercom).head? = some dev := by
      rw [head_filter_eq_find, hf]
    cases hfil : all.filter isExplicitIntercom with
    | nil => rw [hfil] at h1; exact absurd h1 (by simp)
    | cons d ds =>
      rw [hfil] at h1
      simp at h1
      simp [h1]
  | none =>
    have hall : ∀ a ∈ all, isExplicitIntercom a = false := by
      intro a ha
      have := List.find?_eq_none.mp hf a ha
      simpa using this
    have hnil : all.filter isExplicitIntercom = [] :=
      List.filter_eq_nil_iff.mpr (by intro a ha; simp [hall a ha])
    rw [hnil, filter_andNot_of_all_false isExplicitIntercom isOtherFamily all hall]
    cases hq : all.filter isOtherFamily with
    | nil =>
      have h2 : all.find? isOtherFamily = none := by
        rw [← head_filter_eq_find, hq]; rfl
      simp [h2]
    | cons d ds =>
      have h2 : all.find? isOtherFamily = some d := by
        rw [← head_filter_eq_find, hq]; rfl
      simp [h2]

/-- C2: with no configured target name, the resolver returns the first
candidate whose type, family or name contains the substring intercom
case-insensitively if any exists, otherwise the first candidate whose
family equals other, otherwise none; in particular on the candidates
Front Door (other) and Chime (chime) it returns Front Door. -/
theorem find_intercom_no_name_spec :
    (∀ d : RingDevices,
      find_intercom ("") d =
        (match (allDevices d).find? isExplicitIntercom with
         | some dev => some dev
         | none => (allDevices d).find? isOtherFamily)) ∧
    find_intercom ("") exampleDevices = some frontDoor := by
  constructor
  · intro d
    have h : find_intercom ("") d = find_intercom_heuristic (allDevices d) := by
      simp [find_intercom]
    rw [h, find_intercom_heuristic_eq]
  · rfl

/-- C3: when a target device name is configured and some candidate
matches it case-insensitively, the resolver returns the first such
match, overriding the category heuristic entirely. -/
theorem find_intercom_name_override (target : String) (d : RingDevices)
    (ht : target ≠ (""))
    (hm : ∃ dev ∈ allDevices d, nameMatches target dev = true) :
    find_intercom target d = (allDevices d).find? (nameMatches target) := by
  obtain ⟨dev0, hmem, hdev0⟩ := hm
  cases hf : (allDevices d).find? (nameMatches target) with
  | none =>
    exact absurd hdev0 (by simpa using List.find?_eq_none.mp hf dev0 hmem)
  | some dev =>
    simp [find_intercom, ht, hf]

/-- Witness for C3: with configured name Chime over the spec example
candidates, resolution returns the Chime device even though the
heuristic would have picked Front Door. -/
theorem find_intercom_name_override_witness :
    ("Chime" : String) ≠ ("") ∧
    find_intercom ("Chime") exampleDevices = some chimeExample := by
  constructor
  · decide
  · have h := find_intercom_name_override ("Chime") exampleDevices (by decide)
      ⟨chimeExample, by decide, by decide⟩
    rw [h]
    rfl

/-- C10: when a target name is configured but no candidate matches it,
the resolver does not return none on that account: it behaves exactly
as if no name were configured, applying the intercom and family-other
heuristic over all candidates. -/
theorem find_intercom_fallback (target : String) (d : RingDevices)
    (hm : ∀ dev ∈ allDevices d, nameMatches target dev = false) :
    find_intercom target d = find_intercom ("") d := by
  by_cases he : target = ("")
  · rw [he]
  · have h0 : (allDevices d).find? (nameMatches target) = none :=
      List.find?_eq_none.mpr (by intro x hx; simp [hm x hx])
    simp [find_intercom, he, h0]

/-- Witness for C10: the configured name Garage matches no candidate,
yet the resolver still returns Front Door, a device the operator did
not name. -/
theorem find_intercom_fallback_witness :
    find_intercom ("Garage") exampleDevices = find_intercom ("") exampleDevices ∧
    find_intercom ("Garage") exampleDevices = some frontDoor := by
  constructor
  · exact find_intercom_fallback ("Garage") exampleDevices (by decide)
  · rfl

/-- C4: load follows exactly this resolution order: a configured
encoded token that decodes wins; on decode failure or when unset fall
through to the durable file; a present, parsing file yields its
contents; parse failure or an absent file yields absent; consequently,
when an explicit token and a differing durable-file token both exist,
load returns the explicit one. -/
theorem get_cached_token_resolution (s : TokenStoreState) :
    (∀ t, s.ringToken = some (EncodedToken.valid t) →
      get_cached_token s = some t) ∧
    ((s.ringToken = none ∨ s.ringToken = some EncodedToken.garbage) →
      get_cached_token s = read_token_file s) ∧
    (∀ t, s.tokenFile = some (FileText.valid t) → read_token_file s = some t) ∧
    ((s.tokenFile = none ∨ s.tokenFile = some FileText.garbage) →
      read_token_file s = none) ∧
    (∀ t1 t2, s.ringToken = some (EncodedToken.valid t1) →
      s.tokenFile = some (FileText.valid t2) → t1 ≠ t2 →
      get_cached_token s = some t1) := by
  refine ⟨?_, ?_, ?_, ?_, ?_⟩
  · intro t h
    simp [get_cached_token, h, b64_json_decode]
  · rintro (h | h) <;> simp [get_cached_token, h, b64_json_decode]
  · intro t h
    simp [read_token_file, h, json_loads]
  · rintro (h | h) <;> simp [read_token_file, h, json_loads]
  · intro t1 t2 h1 h2 hne
    simp [get_cached_token, h1, b64_json_decode]

/-- Witness for C4: a state holding a valid explicit token and a
differing valid file token, on which load returns the explicit one. -/
theorem get_cached_token_resolution_witness :
    storeBoth.ringToken = some (EncodedToken.valid tokenA) ∧
    storeBoth.tokenFile = some (FileText.valid tokenB) ∧
    tokenA ≠ tokenB ∧
    get_cached_token storeBoth = some tokenA := by
  refine ⟨rfl, rfl, by decide, ?_⟩
  exact (get_cached_token_resolution storeBoth).2.2.2.2 tokenA tokenB rfl rfl
    (by decide)

/-- C5: persist never raises (it is a total function of the modelled
state and the external write outcome); when the durable write fails the
failure is swallowed and the file is untouched, when it succeeds the
file holds the token JSON, and on both paths the in-memory last-known
value becomes the base64 encoding of the token JSON; RING_TOKEN is
never reassigned. -/
theorem token_updated_spec (s : TokenStoreState) (t : TokenData) :
    (∀ w, (token_updated s t w).latestTokenB64 = some (b64_json_encode t)) ∧
    ((token_updated s t false).tokenFile = s.tokenFile) ∧
    ((token_updated s t true).tokenFile = some (json_dumps t)) ∧
    (∀ w, (token_updated s t w).ringToken = s.ringToken) := by
  refine ⟨?_, rfl, rfl, ?_⟩
  · intro w
    cases w <;> rfl
  · intro w
    cases w <;> rfl

/-- C9: load followed immediately by persist of the loaded value leaves
the observable store state fixed: a subsequent load returns the same
value, whether or not the durable write succeeded. -/
theorem load_persist_load (s : TokenStoreState) (t : TokenData) (w : Bool)
    (h : get_cached_token s = some t) :
    get_cached_token (token_updated s t w) = some t := by
  cases w with
  | false =>
    have heq : get_cached_token (token_updated s t false) = get_cached_token s := rfl
    rw [heq, h]
  | true =>
    cases hr : s.ringToken with
    | none =>
      simp [get_cached_token, token_updated, read_token_file, hr, json_dumps,
        json_loads]
    | some enc =>
      cases enc with
      | valid t0 =>
        have h0 : get_cached_token s = some t0 := by
          simp [get_cached_token, hr, b64_json_decode]
        rw [h0] at h
        injection h with h
        subst h
        simp [get_cached_token, token_updated, hr, b64_json_decode]
      | garbage =>
        simp [get_cached_token, token_updated, read_token_file, hr,
          b64_json_decode, json_dumps, json_loads]

/-- Witness for C9: loading the explicit token and persisting it back
leaves a subsequent load returning the same token. -/
theorem load_persist_load_witness :
    get_cached_token storeEnvOnly = some tokenA ∧
    get_cached_token (token_updated storeEnvOnly tokenA true) = some tokenA :=
  ⟨rfl, load_persist_load storeEnvOnly tokenA true rfl⟩

/-- C1: when acquisition returns absent the release is never invoked,
and when acquisition succeeds the release is invoked exactly once on
every exit path of the unlock attempt; on the path where the actuate
call raises, the returned result has success false and carries the
error text. -/
theorem unlock_release_spec (cfg : String) (env : RingEnv) :
    (get_ring_client env = Except.ok false →
      (unlock_door_async cfg env).releases = 0) ∧
    (get_ring_client env = Except.ok true →
      (unlock_door_async cfg env).releases = 1) ∧
    (∀ dev e, get_ring_client env = Except.ok true →
      find_intercom cfg env.devices = some dev →
      env.actuate = Except.error e →
      (unlock_door_async cfg env).result =
        Except.ok (false, ("Error unlocking door: ") ++ e) ∧
      (unlock_door_async cfg env).releases = 1) := by
  refine ⟨?_, ?_, ?_⟩
  · intro h
    simp [unlock_door_async, h]
  · intro h
    simp [unlock_door_async, h]
  · intro dev e h hf ha
    constructor
    · simp [unlock_door_async, h, hf, ha]
    · simp [unlock_door_async, h]

/-- Witness for C1: a session is acquired, the actuate call raises the
text boom, the result is a failure carrying boom, and release ran
exactly once. -/
theorem unlock_release_spec_witness :
    get_ring_client envActuateFails = Except.ok true ∧
    find_intercom ("") envActuateFails.devices = some frontDoor ∧
    envActuateFails.actuate = Except.error ("boom") ∧
    (unlock_door_async ("") envActuateFails).result =
      Except.ok (false, ("Error unlocking door: ") ++ ("boom")) ∧
    (unlock_door_async ("") envActuateFails).releases = 1 := by
  have h := (unlock_release_spec ("") envActuateFails).2.2 frontDoor ("boom")
    rfl rfl rfl
  exact ⟨rfl, rfl, rfl, h.1, h.2⟩

/-- Counterexample to C6 as stated: with a valid cached token and a
transport error while opening the session, unlock_door_async does not
return a structured result: the exception escapes the function (the
result is the error branch, with no release performed). -/
theorem unlock_transport_error_escapes :
    (unlock_door_async ("") envTimeout).result =
      Except.error ("Connection timeout") ∧
    (unlock_door_async ("") envTimeout).releases = 0 :=
  ⟨rfl, rfl⟩

/-- C6 amended: an authentication failure during acquisition yields
absent and the unlock returns the structured not-authenticated failure,
but any other session-opening error escapes unlock_door_async as a raw
exception with no release, because get_ring_client is called before
the try block and catches only AuthenticationError. -/
theorem unlock_acquire_error_spec (cfg : String) (env : RingEnv) :
    (∀ msg t, get_cached_token env.store = some t →
      env.session = SessionOutcome.otherError msg →
      unlock_door_async cfg env = ⟨Except.error msg, 0⟩) ∧
    (∀ t, get_cached_token env.store = some t →
      env.session = SessionOutcome.authError →
      get_ring_client env = Except.ok false ∧
      unlock_door_async cfg env =
        ⟨Except.ok (false,
          ("Not authenticated. Please visit /setup to authenticate.")), 0⟩) := by
  constructor
  · intro msg t ht hs
    simp [unlock_door_async, get_ring_client, ht, hs]
  · intro t ht hs
    have hg : get_ring_client env = Except.ok false := by
      simp [get_ring_client, ht, hs]
    exact ⟨hg, by simp [unlock_door_async, hg]⟩

/-- Witness for the amended C6: an expired token makes acquisition
report absent and unlock return the structured not-authenticated
failure with no release. -/
theorem unlock_acquire_error_spec_witness :
    get_cached_token envAuthExpired.store = some tokenA ∧
    envAuthExpired.session = SessionOutcome.authError ∧
    get_ring_client envAuthExpired = Except.ok false ∧
    unlock_door_async ("") envAuthExpired =
      ⟨Except.ok (false,
        ("Not authenticated. Please visit /setup to authenticate.")), 0⟩ := by
  have h := (unlock_acquire_error_spec ("") envAuthExpired).2 tokenA rfl rfl
  exact ⟨rfl, rfl, h.1, h.2⟩

/-- Counterexample to C8 as stated: a device living only in the chimes
grouping is considered by the resolver (it is in the flattened
candidate set), no match is found, yet the failure diagnostic listing
is empty, because the diagnostic consults only the devices_combined
and other groupings. -/
theorem diagnostic_omits_considered_candidates :
    find_intercom ("") chimesOnly = none ∧
    allDevices chimesOnly = [chimeOnlyDev] ∧
    device_list chimesOnly = [] :=
  ⟨rfl, rfl, rfl⟩

/-- C8 amended: when the resolver finds no match, the failure result
carries a diagnostic listing name and family of each device in the
devices_combined grouping when that grouping is non-empty, else of the
other grouping, not of all flattened groupings; the listing has length
zero when both those groupings are empty or absent, in particular when
the session exposes no devices at all. -/
theorem unlock_no_intercom_diag (cfg : String) (env : RingEnv)
    (hc : get_ring_client env = Except.ok true)
    (hn : find_intercom cfg env.devices = none) :
    (unlock_door_async cfg env).result =
      Except.ok (false, ("No intercom found. Available devices: ") ++
        pyStrList (device_list env.devices)) ∧
    (unlock_door_async cfg env).releases = 1 ∧
    (∀ l, env.devices.devices_combined = some l → l ≠ [] →
      device_list env.devices = l.map deviceEntry) ∧
    (env.devices.devices_combined.getD [] = [] →
      device_list env.devices = (env.devices.other.getD []).map deviceEntry) := by
  refine ⟨?_, ?_, ?_, ?_⟩
  · simp [unlock_door_async, hc, hn]
  · simp [unlock_door_async, hc]
  · intro l hl hne
    cases l with
    | nil => exact absurd rfl hne
    | cons x xs => simp [device_list, diagnosticDevices, hl]
  · intro hl
    simp [device_list, diagnosticDevices, hl]

/-- Witness for the amended C8: a session with no devices at all yields
the no-intercom failure whose diagnostic listing is empty. -/
theorem unlock_no_intercom_diag_witness :
    get_ring_client envNoDevices = Except.ok true ∧
    find_intercom ("") envNoDevices.devices = none ∧
    (unlock_door_async ("") envNoDevices).result =
      Except.ok (false, ("No intercom found. Available devices: ") ++
        pyStrList (device_list envNoDevices.devices)) ∧
    device_list envNoDevices.devices = [] := by
  have h := unlock_no_intercom_diag ("") envNoDevices rfl rfl
  exact ⟨rfl, rfl, h.1, rfl⟩

/-- C7: the second-factor stage succeeds exactly when the fetch with
code and the full verification session round trip (open, pull data,
close) all succeed, so success always implies a verification session
was opened and closed before Complete; the first failing call, in
particular an incorrect code, yields Failed carrying its reason, never
Complete. -/
theorem verify_2fa_spec (env : VerifyEnv) :
    (setup_verify_2fa env = (true, none) ↔
      env.fetchToken = Except.ok () ∧ env.createSession = Except.ok () ∧
      env.updateData = Except.ok () ∧ env.closeAuth = Except.ok ()) ∧
    (∀ e, env.fetchToken = Except.error e →
      setup_verify_2fa env = (false, some e)) ∧
    (∀ e, env.fetchToken = Except.ok () → env.createSession = Except.error e →
      setup_verify_2fa env = (false, some e)) ∧
    ((setup_verify_2fa env).1 = false → ∃ e, (setup_verify_2fa env).2 = some e) ∧
    ((setup_verify_2fa env).1 = true → setup_verify_2fa env = (true, none)) := by
  obtain ⟨f, c, u, cl⟩ := env
  cases f with
  | error e => simp [setup_verify_2fa]
  | ok uf =>
    cases uf
    cases c with
    | error e => simp [setup_verify_2fa]
    | ok uc =>
      cases uc
      cases u with
      | error e => simp [setup_verify_2fa]
      | ok uu =>
        cases uu
        cases cl with
        | error e => simp [setup_verify_2fa]
        | ok ucl =>
          cases ucl
          simp [setup_verify_2fa]

/-- Witness for C7: an incorrect code makes the fetch raise, and the
stage returns Failed with that reason. -/
theorem verify_2fa_spec_witness :
    setup_verify_2fa envBadCode = (false, some ("2fa error: invalid code")) :=
  (verify_2fa_spec envBadCode).2.1 ("2fa error: invalid code") rfl

/-- Witness for C2: the spec example evaluated concretely through the
resolver theorem. -/
theorem find_intercom_no_name_spec_witness :
    find_intercom ("") exampleDevices = some frontDoor :=
  (find_intercom_no_name_spec).2

/-- Witness for C5: a concrete failed write leaves the file untouched
while the in-memory encoded value is still updated. -/
theorem token_updated_spec_witness :
    (token_updated storeEnvOnly tokenB false).latestTokenB64 =
      some (b64_json_encode tokenB) ∧
    (token_updated storeEnvOnly tokenB false).tokenFile =
      storeEnvOnly.tokenFile :=
  ⟨(token_updated_spec storeEnvOnly tokenB).1 false,
    (token_updated_spec storeEnvOnly tokenB).2.1⟩
